import Mathlib

/-!
Verification of the History-API repository against its specification.

The repository contains near-duplicate Express/Sequelize services:
* `src/src/riwayat.js` — email-keyed variant: a `HISTORY` identity table
  (primary key `email`) plus a dependent `MESSAGE` table.
* `src/src/history.js` — single-row-per-email variant: one `history` table,
  primary key `id`; the message fields live on the identity row and are
  overwritten in place.
* `src/unnamed/part_001` — two copies of the soundboard / history / profile /
  feedback service.

Each route handler is embedded as a pure Lean function from the request
payload and the database state to a response paired with the new state.
Database and upstream calls that can throw at runtime are made explicit by
Boolean failure parameters: `true` means that particular call throws, in
which case the handler's `catch` (or the Express error middleware) produces
a 500 response.  Responses are modelled by their HTTP status code, together
with the body fields a claim talks about.
-/

namespace Riwayat

/-- A row of the `HISTORY` table in riwayat.js (primary key `email`). -/
structure HRow where
  email : String
  id : String
  title : String
deriving DecidableEq

/-- A row of the `MESSAGE` table in riwayat.js. -/
structure MRow where
  message_id : String
  email : String
  message : String
  created_at : Nat
  is_speech_to_text : Bool
deriving DecidableEq

/-- The database state of riwayat.js: the two tables. -/
structure DB where
  history : List HRow
  messages : List MRow
deriving DecidableEq

/-- DELETE /api/history/:email in riwayat.js.  The handler looks the email
up with `History.findOne`; on a miss it answers 404.  Otherwise it runs
`Message.destroy({where:{email}})` and then `History.destroy({where:{email}})`
as two separate awaited calls with no transaction; `msgDestroyFails`
(resp. `histDestroyFails`) injects a thrown error into the first
(resp. second) call, which the `catch` turns into a 500 response. -/
def deleteByKey (e : String) (msgDestroyFails histDestroyFails : Bool)
    (db : DB) : Nat × DB :=
  match db.history.find? (fun r => r.email == e) with
  | none => (404, db)
  | some _ =>
    if msgDestroyFails then (500, db)
    else
      let db1 : DB := { db with messages := db.messages.filter (fun m => m.email != e) }
      if histDestroyFails then (500, db1)
      else (200, { db1 with history := db1.history.filter (fun r => r.email != e) })

/-- POST /api/history/email in riwayat.js: validates that email and title
are truthy, rejects with 400 when `History.findOne` finds the email,
otherwise `History.create` appends the new identity row and answers 201. -/
def createIdentity (e t freshId : String) (db : DB) : Nat × DB :=
  if e = "" ∨ t = "" then (400, db)
  else
    match db.history.find? (fun r => r.email == e) with
    | some _ => (400, db)
    | none => (201, { db with history := db.history ++ [⟨e, freshId, t⟩] })

/-- POST /api/history/:email in riwayat.js: validates that the message is
truthy and `is_speech_to_text` is defined, answers 404 when no identity row
has the email, otherwise `Message.create` appends a message row (201). -/
def attachMessage (e msg : String) (stt : Option Bool) (freshId : String)
    (now : Nat) (db : DB) : Nat × DB :=
  match stt with
  | none => (400, db)
  | some b =>
    if msg = "" then (400, db)
    else
      match db.history.find? (fun r => r.email == e) with
      | none => (404, db)
      | some _ =>
        (201, { db with messages := db.messages ++ [⟨freshId, e, msg, now, b⟩] })

/-- Concrete state for exercising the delete route: one identity row for
email `"e"` and one dependent message. -/
def db0 : DB :=
  { history := [⟨"e", "i", "t"⟩],
    messages := [⟨"m", "e", "hello", 0, false⟩] }

end Riwayat

namespace HistoryJs

/-- A row of the `history` table in history.js (primary key `id`); the
identity-creation route inserts NULL message and is_speech_to_text, so those
columns are modelled as optional. -/
structure Row where
  id : String
  title : String
  message : Option String
  is_speech_to_text : Option Bool
  email : String
  created_at : Nat
deriving DecidableEq

/-- POST /api/history/email in history.js: validates that title and email
are truthy, rejects with 400 when the raw `SELECT * FROM history WHERE
email = ?` returns any row, otherwise inserts a row with NULL message and
NULL is_speech_to_text and answers 201. -/
def createIdentity (t e freshId : String) (now : Nat) (db : List Row) :
    Nat × List Row :=
  if t = "" ∨ e = "" then (400, db)
  else if db.any (fun r => r.email == e) then (400, db)
  else (201, db ++ [⟨freshId, t, none, none, e, now⟩])

/-- The in-place update performed by `existingHistory.save()`: the first row
whose email matches (the row `History.findOne` returned) gets its message,
is_speech_to_text and created_at fields replaced; every other row is kept. -/
def updateFirst (e msg : String) (b : Bool) (now : Nat) : List Row → List Row
  | [] => []
  | r :: rs =>
    if r.email == e then
      { r with message := some msg, is_speech_to_text := some b,
               created_at := now } :: rs
    else r :: updateFirst e msg b now rs

/-- POST /api/history/:email in history.js: validates that the message is
truthy and `is_speech_to_text` is defined; when `History.findOne` finds a
row for the email it overwrites that row's message fields and created_at and
answers 200, otherwise it answers 404. -/
def attachMessage (e msg : String) (stt : Option Bool) (now : Nat)
    (db : List Row) : Nat × List Row :=
  match stt with
  | none => (400, db)
  | some b =>
    if msg = "" then (400, db)
    else if db.any (fun r => r.email == e) then (200, updateFirst e msg b now db)
    else (404, db)

/-- One step of an Express handler: it may end the request with a response
and a database state, fall through to the next matching route via a plain
`next()`, or jump to the error middleware via `next(error)`. -/
inductive HStep where
  | respond (status : Nat) (db : List Row)
  | nextPlain (db : List Row)
  | nextError (db : List Row)
deriving DecidableEq

/-- The first registered DELETE /api/history/:email handler (history.js
lines 287-311): `History.findAll({where:{email}})`, 404 when the result is
empty, otherwise `History.destroy({where:{email}})` removes every matching
row and the handler answers 200.  Each of the two database calls may throw
(`findFails`, `destroyFails`), which the handler forwards as `next(error)`. -/
def deleteHandler1 (e : String) (findFails destroyFails : Bool)
    (db : List Row) : HStep :=
  if findFails then .nextError db
  else
    let histories := db.filter (fun r => r.email == e)
    if histories.length = 0 then .respond 404 db
    else if destroyFails then .nextError db
    else .respond 200 (db.filter (fun r => !(r.email == e)))

/-- The second registered DELETE /api/history/:email handler (history.js
lines 314-338): `History.findByPk(email)` looks the email up as the primary
key `id`; 404 on a miss, otherwise `history.destroy()` removes the rows with
that id and the handler answers 200. -/
def deleteHandler2 (e : String) (findFails destroyFails : Bool)
    (db : List Row) : HStep :=
  if findFails then .nextError db
  else
    match db.find? (fun r => r.id == e) with
    | none => .respond 404 db
    | some r =>
      if destroyFails then .nextError db
      else .respond 200 (db.filter (fun x => !(x.id == r.id)))

/-- Express route dispatch over a stack of handlers for one path: handlers
are tried in registration order; a plain `next()` moves to the next handler,
`next(error)` skips the remaining handlers and lets the error middleware
answer 500, and when the stack is exhausted the 404 catch-all answers.  The
result records which handler index produced the response (`none` when a
middleware did). -/
def runStack (idx : Nat) (hs : List (List Row → HStep)) (db : List Row) :
    Option Nat × Nat × List Row :=
  match hs with
  | [] => (none, 404, db)
  | h :: rest =>
    match h db with
    | .respond status db1 => (some idx, status, db1)
    | .nextPlain db1 => runStack (idx + 1) rest db1
    | .nextError db1 => (none, 500, db1)

/-- The registered stack for DELETE /api/history/:email in history.js: both
handlers, in registration order. -/
def deleteDispatch (e : String) (f1 d1 f2 d2 : Bool) (db : List Row) :
    Option Nat × Nat × List Row :=
  runStack 0 [deleteHandler1 e f1 d1, deleteHandler2 e f2 d2] db

/-- The behaviour the first handler is specified to have: find all rows
matching the email and destroy them all (404 when none match). -/
def deleteAllByEmailSpec (e : String) (db : List Row) : Nat × List Row :=
  if db.any (fun r => r.email == e) then (200, db.filter (fun r => !(r.email == e)))
  else (404, db)

end HistoryJs

namespace Part1

/-- The public URL `uploadToGCS` computes for an object it has stored:
the storage base URL, the bucket name and the object name. -/
def mkPublicUrl (bucketName filename : String) : String :=
  "https://storage.googleapis.com/" ++ bucketName ++ "/" ++ filename

/-- A row of the `Soundboards` table in part_001. -/
structure SBRow where
  text : String
  audioUrl : String
  fileName : String
deriving DecidableEq

/-- POST /api/soundboards in part_001 (lines 590-623): validates that the
text is truthy (else 400), awaits `generateSpeech` and then `uploadToGCS`
— `synthOk` / `uploadOk` being `false` means the corresponding call throws,
which `next(error)` turns into the error middleware's 500 — and only after
both succeed does `Soundboard.create` append the row and the handler answer
201.  `fileName` stands for the freshly generated `uuidv4() ++ ".mp3"`. -/
def postSoundboard (text fileName bucketName : String)
    (synthOk uploadOk : Bool) (rows : List SBRow) : Nat × List SBRow :=
  if text = "" then (400, rows)
  else if !synthOk then (500, rows)
  else if !uploadOk then (500, rows)
  else (201, rows ++ [⟨text, mkPublicUrl bucketName fileName, fileName⟩])

/-- A row of the `feedback` table in part_001. -/
structure FBRow where
  comment : String
  rating : Int
deriving DecidableEq

/-- POST /api/feedback in part_001 (lines 789-826): the truthiness check
`!comment || !rating` rejects an empty comment or a zero rating with 400,
the range check rejects ratings outside [1,4] with 400, and only then is
the row inserted and 201 returned. -/
def postFeedback (comment : String) (rating : Int) (rows : List FBRow) :
    Nat × List FBRow :=
  if comment = "" ∨ rating = 0 then (400, rows)
  else if rating < 1 ∨ rating > 4 then (400, rows)
  else (201, rows ++ [⟨comment, rating⟩])

/-- A row of the `history` table in part_001 (auto-increment id, title,
message, created_at). -/
structure HRow where
  id : Nat
  title : String
  message : String
  created_at : Nat
deriving DecidableEq

/-- Insertion into a list sorted by created_at descending. -/
def insertDesc (r : HRow) : List HRow → List HRow
  | [] => [r]
  | x :: xs =>
    if x.created_at ≤ r.created_at then r :: x :: xs
    else x :: insertDesc r xs

/-- The row order produced by `SELECT * FROM history ORDER BY created_at
DESC`. -/
def sortByCreatedDesc : List HRow → List HRow
  | [] => []
  | x :: xs => insertDesc x (sortByCreatedDesc xs)

/-- GET /api/history in part_001 (lines 675-689): the query with
`QueryTypes.SELECT` resolves to the full ordered row array, but the handler
destructures it as `const [histories] = ...`, so `histories` is only the
first element (or `undefined` on an empty table), and the 200 response's
`data` field carries that single optional row. -/
def listAll (db : List HRow) : Nat × Option HRow :=
  (200, (sortByCreatedDesc db).head?)

/-- A row of the `profile` table in part_001 (singleton, fixed id 1). -/
structure PRow where
  id : Nat
  name : String
  profile_picture_url : Option String
  updated_at : Nat
deriving DecidableEq

/-- The 200 response body of PUT /api/profile: `{name,
profile_picture_url}`, where the picture field echoes the handler-local
`profilePictureUrl` variable.  `bodyName`/`bodyPic` are `none` on the 400
and 500 responses, whose bodies carry no profile data. -/
structure PutResp where
  status : Nat
  bodyName : Option String
  bodyPic : Option String
deriving DecidableEq

/-- The object name PUT /api/profile generates for an uploaded picture:
`profiles/` ++ timestamp ++ `-` ++ the original file name. -/
def profileObjectName (now : Nat) (originalname : String) : String :=
  "profiles/" ++ toString now ++ "-" ++ originalname

/-- PUT /api/profile in part_001 (lines 740-786): 400 when the name is not
truthy; when a file was uploaded, `uploadToGCS` either throws (`uploadOk =
false`, giving the error middleware's 500 with no database write) or sets
`profilePictureUrl`; the UPDATE statement targets `WHERE id = 1` and sets
the picture column only when `profilePictureUrl` is truthy; the 200
response body echoes the name and the local `profilePictureUrl`, which is
`null` whenever no file was uploaded. -/
def putProfile (name : String) (file : Option String) (uploadOk : Bool)
    (now : Nat) (bucketName : String) (rows : List PRow) :
    PutResp × List PRow :=
  if name = "" then (⟨400, none, none⟩, rows)
  else
    match file with
    | some originalname =>
      if !uploadOk then (⟨500, none, none⟩, rows)
      else
        let url := mkPublicUrl bucketName (profileObjectName now originalname)
        (⟨200, some name, some url⟩,
         rows.map (fun r =>
           if r.id = 1 then
             { r with name := name, profile_picture_url := some url,
                      updated_at := now }
           else r))
    | none =>
      (⟨200, some name, none⟩,
       rows.map (fun r =>
         if r.id = 1 then { r with name := name, updated_at := now } else r))

/-- One PUT /api/profile request, as used by the repeated-update claim:
its name, optional uploaded file and timestamp. -/
structure PCall where
  name : String
  file : Option String
  now : Nat
deriving DecidableEq

/-- A sequence of successful PUT /api/profile requests, applied left to
right. -/
def runPuts (bucketName : String) (calls : List PCall) (rows : List PRow) :
    List PRow :=
  calls.foldl (fun rs c => (putProfile c.name c.file true c.now bucketName rs).2) rows

/-- The name held after a call sequence: the last call's name, or the
given default when there was no call. -/
def lastNameD (d : String) : List PCall → String
  | [] => d
  | c :: cs => lastNameD c.name cs

/-- The picture URL held after a call sequence: the URL uploaded by the
last call that supplied a file, or the initial value when none did. -/
def finalPicD (bucketName : String) (init : Option String) :
    List PCall → Option String
  | [] => init
  | c :: cs =>
    finalPicD bucketName
      (match c.file with
       | some originalname =>
         some (mkPublicUrl bucketName (profileObjectName c.now originalname))
       | none => init) cs

end Part1

/-! ## Helper lemmas shared by the claims -/

theorem all_filter_self {α : Type} (p : α → Bool) (l : List α) :
    (l.filter p).all p = true := by
  simp [List.all_eq_true, List.mem_filter]

theorem find?_eq_none_of_forall {α : Type} (p : α → Bool) (l : List α)
    (h : ∀ x ∈ l, p x = false) : l.find? p = none := by
  refine List.find?_eq_none.mpr fun x hx => ?_
  simp [h x hx]

theorem find?_append_last {α : Type} (p : α → Bool) (l : List α) (r : α)
    (h : ∀ x ∈ l, p x = false) (hr : p r = true) :
    (l ++ [r]).find? p = some r := by
  rw [List.find?_append, find?_eq_none_of_forall p l h]
  simp [List.find?, hr]

theorem any_eq_false_of_forall {α : Type} (p : α → Bool) (l : List α)
    (h : ∀ x ∈ l, p x = false) : l.any p = false := by
  simp only [List.any_eq_false]
  intro x hx
  simp [h x hx]

/-! ## C1 — cascade delete of History and Message (riwayat.js) -/

/-- C1 counterexample: the claim says that on any failure of DELETE
/api/history/:email neither the history row nor its messages have been
deleted.  On the state with one identity row for "e" and one dependent
message, injecting a thrown error into `History.destroy` (after
`Message.destroy` already ran) yields a 500 failure response, yet the
message table has been emptied while the history row is still present:
the two deletes are not atomic. -/
theorem c1_cascade_not_atomic_counterexample :
    (Riwayat.deleteByKey "e" false true Riwayat.db0).1 = 500 ∧
    (Riwayat.deleteByKey "e" false true Riwayat.db0).2.messages = [] ∧
    (Riwayat.deleteByKey "e" false true Riwayat.db0).2.history =
      Riwayat.db0.history ∧
    Riwayat.db0.messages ≠ [] := by
  decide

/-- C1 (amended): DELETE /api/history/:email deletes the messages first and
the history row second, with no transaction.  After a successful (200) call
both the history row and every message for the email are absent; if the
message-deletion step fails nothing has been deleted; but if the
history-deletion step fails after the message deletion succeeded, the
response is a 500 failure and the messages for the email have been deleted
while the history rows are untouched. -/
theorem c1_delete_cascade_sequential (e : String) (mF hF : Bool)
    (db : Riwayat.DB) :
    ((Riwayat.deleteByKey e mF hF db).1 = 200 →
      ((Riwayat.deleteByKey e mF hF db).2.history.all
          (fun r => r.email != e) = true ∧
       (Riwayat.deleteByKey e mF hF db).2.messages.all
          (fun m => m.email != e) = true)) ∧
    (mF = true → (Riwayat.deleteByKey e mF hF db).2 = db) ∧
    ((Riwayat.deleteByKey e mF hF db).1 = 500 ∧ mF = false →
      ((Riwayat.deleteByKey e mF hF db).2.history = db.history ∧
       (Riwayat.deleteByKey e mF hF db).2.messages =
         db.messages.filter (fun m => m.email != e))) := by
  unfold Riwayat.deleteByKey
  cases hfind : Riwayat.DB.history db |>.find? (fun r => r.email == e) with
  | none => simp
  | some r =>
    cases mF with
    | true => simp
    | false =>
      cases hF with
      | true => simp
      | false => simp [all_filter_self]

/-- C1 witness: the amended success clause evaluated on the one-row state:
a fault-free delete of "e" leaves no history row and no message for "e". -/
theorem c1_delete_cascade_sequential_witness :
    (Riwayat.deleteByKey "e" false false Riwayat.db0).2.history.all
        (fun r => r.email != "e") = true ∧
    (Riwayat.deleteByKey "e" false false Riwayat.db0).2.messages.all
        (fun m => m.email != "e") = true :=
  (c1_delete_cascade_sequential "e" false false Riwayat.db0).1 (by decide)

/-! ## C2 — soundboard creation is all-or-nothing (part_001) -/

/-- C2: POST /api/soundboards with truthy text creates the Soundboard row
exactly when both the speech synthesis and the storage upload succeed, and
then answers 201; if either upstream call fails, the handler answers 500
and the table is unchanged; and whenever the table changed at all, both
upstream calls succeeded and the response was 201. -/
theorem c2_soundboard_all_or_nothing (text fileName bucketName : String)
    (synthOk uploadOk : Bool) (rows : List Part1.SBRow) (htext : text ≠ "") :
    (synthOk = true ∧ uploadOk = true →
      Part1.postSoundboard text fileName bucketName synthOk uploadOk rows =
        (201, rows ++ [⟨text, Part1.mkPublicUrl bucketName fileName, fileName⟩])) ∧
    (¬(synthOk = true ∧ uploadOk = true) →
      Part1.postSoundboard text fileName bucketName synthOk uploadOk rows =
        (500, rows)) ∧
    ((Part1.postSoundboard text fileName bucketName synthOk uploadOk rows).2 ≠ rows →
      synthOk = true ∧ uploadOk = true ∧
      (Part1.postSoundboard text fileName bucketName synthOk uploadOk rows).1 = 201) := by
  cases synthOk <;> cases uploadOk <;>
    simp [Part1.postSoundboard, htext]

/-- C2 witness: with both upstream calls succeeding, a request on an empty
table creates exactly the one row with the derived public URL and answers
201. -/
theorem c2_soundboard_witness :
    Part1.postSoundboard "halo" "f.mp3" "bkt" true true [] =
      (201, [⟨"halo", Part1.mkPublicUrl "bkt" "f.mp3", "f.mp3"⟩]) :=
  (c2_soundboard_all_or_nothing "halo" "f.mp3" "bkt" true true []
    (by decide)).1 ⟨rfl, rfl⟩

/-! ## C4 — feedback rating validation (part_001) -/

/-- C4: POST /api/feedback answers 201 and persists the row exactly when
the comment is non-empty and 1 ≤ rating ≤ 4; every other request is
rejected with 400 and leaves the feedback table unchanged (so nothing is
persisted for an out-of-range rating). -/
theorem c4_feedback_valid_iff (c : String) (r : Int)
    (rows : List Part1.FBRow) :
    ((Part1.postFeedback c r rows).1 = 201 ↔ (c ≠ "" ∧ 1 ≤ r ∧ r ≤ 4)) ∧
    ((Part1.postFeedback c r rows).1 = 201 →
      (Part1.postFeedback c r rows).2 = rows ++ [⟨c, r⟩]) ∧
    ((Part1.postFeedback c r rows).1 ≠ 201 →
      (Part1.postFeedback c r rows).1 = 400 ∧
      (Part1.postFeedback c r rows).2 = rows) := by
  unfold Part1.postFeedback
  split_ifs with h1 h2
  · refine ⟨iff_of_false (by simp) ?_, fun h => absurd h (by simp),
      fun _ => ⟨rfl, rfl⟩⟩
    rintro ⟨hc, hr1, hr4⟩
    rcases h1 with h | h
    · exact hc h
    · omega
  · refine ⟨iff_of_false (by simp) ?_, fun h => absurd h (by simp),
      fun _ => ⟨rfl, rfl⟩⟩
    rintro ⟨hc, hr1, hr4⟩
    omega
  · push_neg at h1 h2
    exact ⟨iff_of_true rfl ⟨h1.1, by omega, by omega⟩,
      fun _ => rfl, fun h => absurd rfl h⟩

/-- C4 witness: the boundary ratings behave as claimed — 1 and 4 are
accepted with 201, while 0 and 5 are rejected with 400 and persist
nothing. -/
theorem c4_feedback_witness :
    (Part1.postFeedback "ok" 1 []).1 = 201 ∧
    (Part1.postFeedback "ok" 4 []).1 = 201 ∧
    (Part1.postFeedback "ok" 0 []).1 = 400 ∧ (Part1.postFeedback "ok" 0 []).2 = [] ∧
    (Part1.postFeedback "ok" 5 []).1 = 400 ∧ (Part1.postFeedback "ok" 5 []).2 = [] :=
  ⟨(c4_feedback_valid_iff "ok" 1 []).1.mpr (by decide),
   by decide, by decide, by decide, by decide, by decide⟩

/-! ## C3 — identity creation succeeds once, then conflicts -/

/-- C3: in both variants, POST /api/history/email on a state where no
history row has the email inserts exactly one new identity row and answers
201; repeating the call with the same email (any title) on the resulting
state answers 400 Conflict and inserts nothing. -/
theorem c3_create_identity_once
    (e t t2 freshId freshId2 : String) (now now2 : Nat)
    (dbR : Riwayat.DB) (dbH : List HistoryJs.Row)
    (he : e ≠ "") (ht : t ≠ "") (ht2 : t2 ≠ "")
    (hfreshR : ∀ r ∈ dbR.history, r.email ≠ e)
    (hfreshH : ∀ r ∈ dbH, r.email ≠ e) :
    (Riwayat.createIdentity e t freshId dbR =
        (201, { dbR with history := dbR.history ++ [⟨e, freshId, t⟩] }) ∧
     Riwayat.createIdentity e t2 freshId2
          { dbR with history := dbR.history ++ [⟨e, freshId, t⟩] } =
        (400, { dbR with history := dbR.history ++ [⟨e, freshId, t⟩] })) ∧
    (HistoryJs.createIdentity t e freshId now dbH =
        (201, dbH ++ [⟨freshId, t, none, none, e, now⟩]) ∧
     HistoryJs.createIdentity t2 e freshId2 now2
          (dbH ++ [⟨freshId, t, none, none, e, now⟩]) =
        (400, dbH ++ [⟨freshId, t, none, none, e, now⟩])) := by
  have hR : ∀ x ∈ dbR.history, (x.email == e) = false :=
    fun x hx => beq_eq_false_iff_ne.mpr (hfreshR x hx)
  have hH : ∀ x ∈ dbH, (x.email == e) = false :=
    fun x hx => beq_eq_false_iff_ne.mpr (hfreshH x hx)
  refine ⟨⟨?_, ?_⟩, ?_, ?_⟩
  · unfold Riwayat.createIdentity
    rw [if_neg (not_or.mpr ⟨he, ht⟩), find?_eq_none_of_forall _ _ hR]
  · unfold Riwayat.createIdentity
    rw [if_neg (not_or.mpr ⟨he, ht2⟩)]
    rw [show ({ dbR with history := dbR.history ++ [⟨e, freshId, t⟩] } :
          Riwayat.DB).history = dbR.history ++ [⟨e, freshId, t⟩] from rfl]
    rw [find?_append_last _ _ _ hR (by simp)]
  · unfold HistoryJs.createIdentity
    rw [if_neg (not_or.mpr ⟨ht, he⟩), any_eq_false_of_forall _ _ hH]
    simp
  · unfold HistoryJs.createIdentity
    rw [if_neg (not_or.mpr ⟨ht2, he⟩)]
    rw [List.any_append, any_eq_false_of_forall _ _ hH]
    simp

/-- C3 witness: on empty tables, creating the identity for "a@b.c" inserts
it with 201 in both variants, and the immediate second call with the same
email conflicts with 400 and leaves both states unchanged. -/
theorem c3_create_identity_once_witness :
    (Riwayat.createIdentity "a@b.c" "T" "id1" ⟨[], []⟩ =
        (201, ⟨[⟨"a@b.c", "id1", "T"⟩], []⟩) ∧
     Riwayat.createIdentity "a@b.c" "U" "id2" ⟨[⟨"a@b.c", "id1", "T"⟩], []⟩ =
        (400, ⟨[⟨"a@b.c", "id1", "T"⟩], []⟩)) ∧
    (HistoryJs.createIdentity "T" "a@b.c" "id1" 5 [] =
        (201, [⟨"id1", "T", none, none, "a@b.c", 5⟩]) ∧
     HistoryJs.createIdentity "U" "a@b.c" "id2" 6
          [⟨"id1", "T", none, none, "a@b.c", 5⟩] =
        (400, [⟨"id1", "T", none, none, "a@b.c", 5⟩])) :=
  c3_create_identity_once "a@b.c" "T" "U" "id1" "id2" 5 6 ⟨[], []⟩ []
    (by decide) (by decide) (by decide) (by decide) (by decide)

/-! ## C6 — attachMessage on an unknown email writes nothing -/

/-- C6: in both variants, POST /api/history/:email with a non-empty message
and a defined is_speech_to_text answers 404 and changes neither table when
no identity row exists for the email. -/
theorem c6_attach_unknown_email_no_write
    (e msg freshId : String) (b : Bool) (now : Nat)
    (dbR : Riwayat.DB) (dbH : List HistoryJs.Row)
    (hmsg : msg ≠ "")
    (hfreshR : ∀ r ∈ dbR.history, r.email ≠ e)
    (hfreshH : ∀ r ∈ dbH, r.email ≠ e) :
    Riwayat.attachMessage e msg (some b) freshId now dbR = (404, dbR) ∧
    HistoryJs.attachMessage e msg (some b) now dbH = (404, dbH) := by
  have hR : ∀ x ∈ dbR.history, (x.email == e) = false :=
    fun x hx => beq_eq_false_iff_ne.mpr (hfreshR x hx)
  have hH : ∀ x ∈ dbH, (x.email == e) = false :=
    fun x hx => beq_eq_false_iff_ne.mpr (hfreshH x hx)
  constructor
  · show (if msg = "" then ((400 : Nat), dbR)
      else
        match dbR.history.find? (fun r => r.email == e) with
        | none => (404, dbR)
        | some _ =>
          (201, { dbR with
                  messages := dbR.messages ++ [⟨freshId, e, msg, now, b⟩] })) =
      (404, dbR)
    rw [if_neg hmsg, find?_eq_none_of_forall _ _ hR]
  · show (if msg = "" then ((400 : Nat), dbH)
      else if dbH.any (fun r => r.email == e) then
        (200, HistoryJs.updateFirst e msg b now dbH)
      else (404, dbH)) = (404, dbH)
    rw [if_neg hmsg, any_eq_false_of_forall _ _ hH]
    simp

/-- C6 witness: attaching a message for the unknown email "x@y.z" on states
that only know about "a@b.c" answers 404 in both variants and leaves both
states exactly as they were. -/
theorem c6_attach_unknown_email_no_write_witness :
    Riwayat.attachMessage "x@y.z" "hi" (some true) "m1" 7
        ⟨[⟨"a@b.c", "id1", "T"⟩], []⟩ =
      (404, ⟨[⟨"a@b.c", "id1", "T"⟩], []⟩) ∧
    HistoryJs.attachMessage "x@y.z" "hi" (some true) 7
        [⟨"id1", "T", none, none, "a@b.c", 5⟩] =
      (404, [⟨"id1", "T", none, none, "a@b.c", 5⟩]) :=
  c6_attach_unknown_email_no_write "x@y.z" "hi" "m1" true 7
    ⟨[⟨"a@b.c", "id1", "T"⟩], []⟩ [⟨"id1", "T", none, none, "a@b.c", 5⟩]
    (by decide) (by decide) (by decide)

/-! ## C5 — GET /api/history returns a single row in part_001 -/

/-- C5: evaluation of the part_001 GET /api/history handler at the failing
input.  On a table holding two rows the 200 response's data field is just
the single newest row — the `const [histories]` destructuring of the
`QueryTypes.SELECT` result keeps only the first element of the ordered row
array — and on an empty table the data field is `undefined` (`none`) rather
than an empty list.  The claim (and the other variant, history.js) expects
data to contain all rows newest-first, with 404 or an empty list when the
table is empty. -/
theorem c5_list_history_single_row_divergence :
    Part1.listAll [⟨1, "a", "m", 10⟩, ⟨2, "b", "n", 5⟩] =
      (200, some ⟨1, "a", "m", 10⟩) ∧
    Part1.listAll [] = (200, none) := by
  decide

/-! ## C7 — the profile row stays unique under repeated updates -/

/-- One successful PUT /api/profile on the singleton state: the one row
with id 1 is updated in place — the name and updated_at always, the picture
URL only when a file was uploaded — and no row is inserted. -/
theorem putProfile_singleton_step (bucketName : String) (c : Part1.PCall)
    (r0 : Part1.PRow) (h1 : r0.id = 1) (hn : c.name ≠ "") :
    (Part1.putProfile c.name c.file true c.now bucketName [r0]).2 =
      [{ r0 with
          name := c.name,
          profile_picture_url :=
            match c.file with
            | some o =>
              some (Part1.mkPublicUrl bucketName (Part1.profileObjectName c.now o))
            | none => r0.profile_picture_url,
          updated_at := c.now }] := by
  cases hf : c.file with
  | none => simp [Part1.putProfile, hn, h1, hf]
  | some o => simp [Part1.putProfile, hn, h1, hf]

/-- C7: starting from a state with exactly one profile row (id 1), any
sequence of valid PUT /api/profile calls leaves exactly one profile row,
still with id 1, holding the last call's name and the picture URL of the
last call that uploaded a file (the original picture when none did). -/
theorem c7_profile_single_row (bucketName : String)
    (calls : List Part1.PCall) (r0 : Part1.PRow)
    (h1 : r0.id = 1) (hn : ∀ c ∈ calls, c.name ≠ "") :
    ∃ r : Part1.PRow,
      Part1.runPuts bucketName calls [r0] = [r] ∧ r.id = 1 ∧
      r.name = Part1.lastNameD r0.name calls ∧
      r.profile_picture_url =
        Part1.finalPicD bucketName r0.profile_picture_url calls := by
  induction calls generalizing r0 with
  | nil => exact ⟨r0, rfl, h1, rfl, rfl⟩
  | cons c cs ih =>
    have hc : c.name ≠ "" := hn c (by simp)
    obtain ⟨r, hr, hid, hname, hpic⟩ :=
      ih ({ r0 with
            name := c.name,
            profile_picture_url :=
              match c.file with
              | some o =>
                some (Part1.mkPublicUrl bucketName (Part1.profileObjectName c.now o))
              | none => r0.profile_picture_url,
            updated_at := c.now }) h1 (fun d hd => hn d (by simp [hd]))
    refine ⟨r, ?_, hid, ?_, ?_⟩
    · show Part1.runPuts bucketName cs
          ((Part1.putProfile c.name c.file true c.now bucketName [r0]).2) = [r]
      rw [putProfile_singleton_step bucketName c r0 h1 hc]
      exact hr
    · simpa [Part1.lastNameD] using hname
    · simpa [Part1.finalPicD] using hpic

/-- C7 witness: two successive updates on the one-row state — the first
uploading a picture, the second not — leave exactly one row, with the
second call's name and the first call's picture URL. -/
theorem c7_profile_single_row_witness :
    ∃ r : Part1.PRow,
      Part1.runPuts "bkt" [⟨"n1", some "p.png", 3⟩, ⟨"n2", none, 9⟩]
          [⟨1, "old", some "oldpic", 0⟩] = [r] ∧ r.id = 1 ∧
      r.name = Part1.lastNameD "old" [⟨"n1", some "p.png", 3⟩, ⟨"n2", none, 9⟩] ∧
      r.profile_picture_url =
        Part1.finalPicD "bkt" (some "oldpic")
          [⟨"n1", some "p.png", 3⟩, ⟨"n2", none, 9⟩] :=
  c7_profile_single_row "bkt" [⟨"n1", some "p.png", 3⟩, ⟨"n2", none, 9⟩]
    ⟨1, "old", some "oldpic", 0⟩ (by decide) (by decide)

/-! ## C8 — attachMessage overwrites only the message fields in place -/

/-- `save()` on the row `findOne` returned: with every row before the first
match having a different email, only that first matching row changes, and
only in its message, is_speech_to_text and created_at fields. -/
theorem updateFirst_append (e msg : String) (b : Bool) (now : Nat)
    (l t : List HistoryJs.Row) (r : HistoryJs.Row)
    (hl : ∀ x ∈ l, x.email ≠ e) (hr : r.email = e) :
    HistoryJs.updateFirst e msg b now (l ++ r :: t) =
      l ++ { r with message := some msg, is_speech_to_text := some b,
                    created_at := now } :: t := by
  induction l with
  | nil => simp [HistoryJs.updateFirst, hr]
  | cons x xs ih =>
    have hx : x.email ≠ e := hl x (by simp)
    simp [HistoryJs.updateFirst, beq_eq_false_iff_ne.mpr hx,
      ih (fun y hy => hl y (by simp [hy]))]

/-- C8: in the single-row-per-email variant, when a row for the email
exists, POST /api/history/:email answers 200 and rewrites exactly the first
matching row's message, is_speech_to_text and created_at; that row's id,
title and email are untouched, and every other row of the table is exactly
as before. -/
theorem c8_attach_overwrites_in_place (e msg : String) (b : Bool)
    (now : Nat) (l t : List HistoryJs.Row) (r : HistoryJs.Row)
    (hmsg : msg ≠ "") (hl : ∀ x ∈ l, x.email ≠ e) (hr : r.email = e) :
    HistoryJs.attachMessage e msg (some b) now (l ++ r :: t) =
      (200, l ++ { r with message := some msg, is_speech_to_text := some b,
                          created_at := now } :: t) := by
  have hany : (l ++ r :: t).any (fun x => x.email == e) = true :=
    List.any_eq_true.mpr ⟨r, by simp, by simp [hr]⟩
  show (if msg = "" then ((400 : Nat), l ++ r :: t)
    else if (l ++ r :: t).any (fun x => x.email == e) then
      (200, HistoryJs.updateFirst e msg b now (l ++ r :: t))
    else (404, l ++ r :: t)) = _
  rw [if_neg hmsg, hany]
  simp [updateFirst_append e msg b now l t r hl hr]

/-- C8 witness: on a three-row table whose middle row is the first one for
the email "b@c.d", attaching a message rewrites only that middle row's
message fields, keeping its id, title and email and both neighbours
byte-for-byte. -/
theorem c8_attach_overwrites_in_place_witness :
    HistoryJs.attachMessage "b@c.d" "hello" (some true) 9
        [⟨"i1", "T1", none, none, "a@b.c", 1⟩,
         ⟨"i2", "T2", none, none, "b@c.d", 2⟩,
         ⟨"i3", "T3", none, none, "b@c.d", 3⟩] =
      (200,
       [⟨"i1", "T1", none, none, "a@b.c", 1⟩,
        ⟨"i2", "T2", some "hello", some true, "b@c.d", 9⟩,
        ⟨"i3", "T3", none, none, "b@c.d", 3⟩]) :=
  c8_attach_overwrites_in_place "b@c.d" "hello" true 9
    [⟨"i1", "T1", none, none, "a@b.c", 1⟩]
    [⟨"i3", "T3", none, none, "b@c.d", 3⟩]
    ⟨"i2", "T2", none, none, "b@c.d", 2⟩
    (by decide) (by decide) (by decide)

/-! ## C9 — the first registered DELETE handler shadows the second -/

/-- The first DELETE /api/history/:email handler ends every request it
receives: each of its paths either sends a response or forwards an error to
the error middleware; it never calls a plain `next()`, so control never
reaches a later route for the same path. -/
theorem deleteHandler1_never_falls_through (e : String) (f1 d1 : Bool)
    (db : List HistoryJs.Row) :
    (∃ s db1, HistoryJs.deleteHandler1 e f1 d1 db = .respond s db1) ∨
    HistoryJs.deleteHandler1 e f1 d1 db = .nextError db := by
  unfold HistoryJs.deleteHandler1
  cases f1 with
  | true => exact .inr rfl
  | false =>
    by_cases h : (db.filter (fun r => r.email == e)).length = 0
    · exact .inl ⟨404, db, by simp [h]⟩
    · cases d1 with
      | true => exact .inr (by simp [h])
      | false =>
        exact .inl ⟨200, db.filter (fun r => !(r.email == e)), by simp [h]⟩

/-- Without database faults the first handler's response is exactly the
specified one: find all rows matching the email, 404 when there are none,
otherwise destroy them all and answer 200. -/
theorem deleteHandler1_fault_free (e : String) (db : List HistoryJs.Row) :
    HistoryJs.deleteHandler1 e false false db =
      .respond (HistoryJs.deleteAllByEmailSpec e db).1
        (HistoryJs.deleteAllByEmailSpec e db).2 := by
  unfold HistoryJs.deleteHandler1 HistoryJs.deleteAllByEmailSpec
  by_cases h : (db.filter (fun r => r.email == e)).length = 0
  · have hnil : db.filter (fun r => r.email == e) = [] := List.length_eq_zero.mp h
    have hany : db.any (fun r => r.email == e) = false := by
      rw [List.any_eq_false]
      intro x hx hpx
      have : x ∈ db.filter (fun r => r.email == e) :=
        List.mem_filter.mpr ⟨hx, hpx⟩
      simp [hnil] at this
    simp [h, hany]
  · have hany : db.any (fun r => r.email == e) = true := by
      obtain ⟨x, hx⟩ :=
        List.exists_mem_of_length_pos (Nat.pos_of_ne_zero h)
      exact List.any_eq_true.mpr
        ⟨x, (List.mem_filter.mp hx).1, (List.mem_filter.mp hx).2⟩
    simp [h, hany]

/-- C9: for every request to DELETE /api/history/:email in history.js, the
dispatched stack never lets the second registered handler produce the
response — the producer index is never 1.  Every request is answered either
by the first handler (index 0) or, when a database call threw, by the error
middleware (`none`); and in the fault-free case the response is exactly the
first handler's find-all-then-destroy-all behaviour. -/
theorem c9_delete_route_first_registration_wins (e : String)
    (f1 d1 f2 d2 : Bool) (db : List HistoryJs.Row) :
    (HistoryJs.deleteDispatch e f1 d1 f2 d2 db).1 ≠ some 1 ∧
    ((HistoryJs.deleteDispatch e f1 d1 f2 d2 db).1 = some 0 ∨
     (HistoryJs.deleteDispatch e f1 d1 f2 d2 db).1 = none) ∧
    HistoryJs.deleteDispatch e false false f2 d2 db =
      (some 0, HistoryJs.deleteAllByEmailSpec e db) := by
  refine ⟨?_, ?_, ?_⟩
  · rcases deleteHandler1_never_falls_through e f1 d1 db with ⟨s, db1, hh⟩ | hh <;>
      simp [HistoryJs.deleteDispatch, HistoryJs.runStack, hh]
  · rcases deleteHandler1_never_falls_through e f1 d1 db with ⟨s, db1, hh⟩ | hh <;>
      simp [HistoryJs.deleteDispatch, HistoryJs.runStack, hh]
  · simp [HistoryJs.deleteDispatch, HistoryJs.runStack,
      deleteHandler1_fault_free e db]

/-! ## C10 — profile response reports a null picture when none uploaded -/

/-- C10: PUT /api/profile with a valid name and no uploaded file runs the
UPDATE that touches only name and updated_at — the stored row keeps its
profile_picture_url — while the 200 response body always reports
profile_picture_url as null, whatever is actually stored in the row. -/
theorem c10_profile_response_null_picture (name : String) (uploadOk : Bool)
    (now : Nat) (bucketName : String) (r0 : Part1.PRow)
    (hname : name ≠ "") (h1 : r0.id = 1) :
    Part1.putProfile name none uploadOk now bucketName [r0] =
      (⟨200, some name, none⟩,
       [{ r0 with name := name, updated_at := now }]) := by
  simp [Part1.putProfile, hname, h1]

/-- C10 witness: updating only the name of a row that stores the picture
URL "pic" keeps "pic" in the row, yet the 200 response body's
profile_picture_url is null. -/
theorem c10_profile_response_null_picture_witness :
    Part1.putProfile "new" none true 9 "bkt" [⟨1, "old", some "pic", 0⟩] =
      (⟨200, some "new", none⟩, [⟨1, "new", some "pic", 9⟩]) :=
  c10_profile_response_null_picture "new" true 9 "bkt"
    ⟨1, "old", some "pic", 0⟩ (by decide) (by decide)
